import Mathlib

/-!
Verification of the scene-object/bundle model and canvas-update protocol of
the `ssl_simulator_vista` repository, shallowly embedded in Lean 4.

The embedding follows the Python sources:
  * `ssl_vista/plotters/pv_utils/scene_objects.py`
      (`SceneObject`, `SceneObjectBundle`, `Line`)
  * `ssl_vista/plotters/_base_plotters.py`
      (`BaseVisualPlotter.add_scene_object_bundle`,
       `BaseVisualPlotter.remove_scene_object`,
       `BaseVisualPlotter.remove_scene_object_bundle`)
  * `ssl_vista/plotters/plotter_canvas.py` / `base_canvas.py`
      (`BaseCanvasPlotter.clear_artists`)
  * `ssl_vista/plotters/plotter_2d_canvas.py` and `plotter_3d_canvas.py`
      (`update_all_scene_objects`)
  * `ssl_vista/ui/grid.py` (`SimulationGridContext`)

Numeric mesh data is modelled over `ℚ`; numpy arrays become lists of
vectors, Python dicts become insertion-ordered association lists, and a
raised Python exception becomes `Except.error (e, σ)` carrying the state
at the moment the exception is raised (so that "no partial mutation"
claims are expressible).
-/

/-- A 3-component vector of rationals (one mesh point / translation). -/
structure Vec3 where
  x : ℚ
  y : ℚ
  z : ℚ
deriving DecidableEq, Repr

/-- A 2-component vector (2-D mesh point, as stored by the 2-D canvas). -/
structure Vec2 where
  x : ℚ
  y : ℚ
deriving DecidableEq, Repr

instance : Add Vec3 := ⟨fun a b => ⟨a.x + b.x, a.y + b.y, a.z + b.z⟩⟩
instance : Sub Vec3 := ⟨fun a b => ⟨a.x - b.x, a.y - b.y, a.z - b.z⟩⟩
instance : Zero Vec3 := ⟨⟨0, 0, 0⟩⟩

/-- Multiply a vector by a scalar (numpy broadcasting `pts * scale_factor`). -/
def Vec3.smul (k : ℚ) (v : Vec3) : Vec3 := ⟨k * v.x, k * v.y, k * v.z⟩

/-- Divide a vector by a scalar. -/
def Vec3.div (v : Vec3) (k : ℚ) : Vec3 := ⟨v.x / k, v.y / k, v.z / k⟩

/-- A 3x3 matrix, stored as rows. -/
structure Mat3 where
  r0 : Vec3
  r1 : Vec3
  r2 : Vec3
deriving DecidableEq, Repr

/-- Dot product of two vectors. -/
def Vec3.dot (a b : Vec3) : ℚ := a.x * b.x + a.y * b.y + a.z * b.z

/-- Matrix-vector product (`R @ p` in numpy, applied pointwise). -/
def Mat3.mulVec (m : Mat3) (v : Vec3) : Vec3 :=
  ⟨m.r0.dot v, m.r1.dot v, m.r2.dot v⟩

/-- An actor handle on the render surface; the canvas claims only use its
current color, modelled as an abstract code. -/
structure PvActor where
  color : ℕ
deriving DecidableEq, Repr

/--
Model of `SceneObject` (scene_objects.py, class `SceneObject`): the atomic
renderable unit.  `meshPts` are the current mesh points (`self.mesh.points`),
`default_mesh_pts` the snapshot taken at construction (`self.default_mesh`),
`default_centroid` the pivot recorded at construction, `actor` the optional
on-surface handle and `default_color` the lazily captured restore color.
-/
structure SceneObject where
  meshPts : List Vec3
  default_mesh_pts : List Vec3
  default_centroid : Vec3
  actor : Option PvActor
  default_color : Option ℕ
deriving DecidableEq, Repr

namespace SceneObject

/--
Model of `SceneObject.update_mesh_points` (scene_objects.py lines 178-184):
replaces the current mesh points only when the point count matches;
otherwise it is a silent no-op (guarded update).  The `self.mesh is not
None` guard is vacuous here because the model always carries a mesh.
-/
def update_mesh_points (new_points : List Vec3) (o : SceneObject) : SceneObject :=
  if o.meshPts.length = new_points.length then
    { o with meshPts := new_points }
  else
    o

/--
Model of `SceneObject.transform` (scene_objects.py lines 90-120): starts from a copy
of `default_mesh.points`; resolves the pivot to `default_centroid` when no
center is given but a rotation or scaling is requested; applies rotation
about the pivot, then uniform scaling about the pivot, then translation;
finally writes the result through `update_mesh_points`.
-/
def transform (translation : Option Vec3) (R : Option Mat3)
    (scale_factor : Option ℚ) (center : Option Vec3)
    (o : SceneObject) : SceneObject :=
  let pts := o.default_mesh_pts
  let c : Option Vec3 :=
    if center.isNone ∧ (R.isSome ∨ scale_factor.isSome) then
      some o.default_centroid
    else center
  let pts := match R with
    | some r => pts.map (fun p => r.mulVec (p - c.getD 0) + c.getD 0)
    | none => pts
  let pts := match scale_factor with
    | some k => pts.map (fun p => Vec3.smul k (p - c.getD 0) + c.getD 0)
    | none => pts
  let pts := match translation with
    | some t => pts.map (fun p => p + t)
    | none => pts
  o.update_mesh_points pts

/--
Model of `SceneObject.translate` (scene_objects.py lines 122-133): adds the
translation vector to the *current* mesh points (incremental, unlike
`transform`) and writes them through `update_mesh_points`.
-/
def translate (translation : Vec3) (o : SceneObject) : SceneObject :=
  o.update_mesh_points (o.meshPts.map (fun p => p + translation))

/--
Model of `SceneObject.set_color` (scene_objects.py lines 62-67): no-op when
unattached; otherwise captures the actor's current color into
`default_color` if that is still unset, then applies the new color.
-/
def set_color (color : ℕ) (o : SceneObject) : SceneObject :=
  match o.actor with
  | none => o
  | some a =>
    let o := if o.default_color.isNone then
        { o with default_color := some a.color }
      else o
    { o with actor := some { a with color := color } }

/--
Model of `SceneObject.reset_color` (scene_objects.py lines 79-84): restores the
captured default color when both the actor and the default are present.
-/
def reset_color (o : SceneObject) : SceneObject :=
  match o.actor, o.default_color with
  | some a, some d => { o with actor := some { a with color := d } }
  | _, _ => o

end SceneObject

/-- The list of points produced by the body of `SceneObject.transform`
before the guarded write (exposed to reason about two successive calls). -/
def transformPts (translation : Option Vec3) (R : Option Mat3)
    (scale_factor : Option ℚ) (center : Option Vec3)
    (o : SceneObject) : List Vec3 :=
  let pts := o.default_mesh_pts
  let c : Option Vec3 :=
    if center.isNone ∧ (R.isSome ∨ scale_factor.isSome) then
      some o.default_centroid
    else center
  let pts := match R with
    | some r => pts.map (fun p => r.mulVec (p - c.getD 0) + c.getD 0)
    | none => pts
  let pts := match scale_factor with
    | some k => pts.map (fun p => Vec3.smul k (p - c.getD 0) + c.getD 0)
    | none => pts
  match translation with
  | some t => pts.map (fun p => p + t)
  | none => pts

theorem SceneObject.transform_eq_update (translation : Option Vec3)
    (R : Option Mat3) (scale_factor : Option ℚ) (center : Option Vec3)
    (o : SceneObject) :
    o.transform translation R scale_factor center =
      o.update_mesh_points (transformPts translation R scale_factor center o) := by
  cases translation <;> cases R <;> cases scale_factor <;> cases center <;>
    rfl

theorem transformPts_length (translation : Option Vec3) (R : Option Mat3)
    (scale_factor : Option ℚ) (center : Option Vec3) (o : SceneObject) :
    (transformPts translation R scale_factor center o).length =
      o.default_mesh_pts.length := by
  cases translation <;> cases R <;> cases scale_factor <;> cases center <;>
    simp [transformPts]

theorem transformPts_only_defaults (a b : SceneObject)
    (hm : a.default_mesh_pts = b.default_mesh_pts)
    (hc : a.default_centroid = b.default_centroid)
    (translation : Option Vec3) (R : Option Mat3)
    (scale_factor : Option ℚ) (center : Option Vec3) :
    transformPts translation R scale_factor center a =
      transformPts translation R scale_factor center b := by
  cases translation <;> cases R <;> cases scale_factor <;> cases center <;>
    simp [transformPts, hm, hc]

/--
C5: for a `SceneObject` whose current mesh has the same point count as its
default mesh, running `transform` with a first argument tuple and then with
a second leaves the mesh points exactly as a single call with the second
tuple would; in particular `transform` is idempotent, because it always
recomputes points from the default mesh.
-/
theorem transform_overwrites_previous_transform
    (o : SceneObject) (h : o.meshPts.length = o.default_mesh_pts.length)
    (t1 : Option Vec3) (R1 : Option Mat3) (s1 : Option ℚ) (c1 : Option Vec3)
    (t2 : Option Vec3) (R2 : Option Mat3) (s2 : Option ℚ) (c2 : Option Vec3) :
    (o.transform t1 R1 s1 c1).transform t2 R2 s2 c2 = o.transform t2 R2 s2 c2 := by
  have h1 := SceneObject.transform_eq_update t1 R1 s1 c1 o
  have h2 := SceneObject.transform_eq_update t2 R2 s2 c2 o
  have hlen1 := transformPts_length t1 R1 s1 c1 o
  have hlen2 := transformPts_length t2 R2 s2 c2 o
  -- the first call writes (the point counts agree), producing o1
  have ho1 : o.transform t1 R1 s1 c1 =
      { o with meshPts := transformPts t1 R1 s1 c1 o } := by
    rw [h1, SceneObject.update_mesh_points, if_pos (by rw [h, hlen1])]
  set o1 : SceneObject := { o with meshPts := transformPts t1 R1 s1 c1 o } with ho1def
  have hpts : transformPts t2 R2 s2 c2 o1 = transformPts t2 R2 s2 c2 o :=
    transformPts_only_defaults o1 o rfl rfl t2 R2 s2 c2
  have h2' := SceneObject.transform_eq_update t2 R2 s2 c2 o1
  rw [ho1, h2', h2]
  rw [SceneObject.update_mesh_points, SceneObject.update_mesh_points]
  rw [if_pos (by simp [ho1def, hlen1, hlen2, hpts]), if_pos (by rw [h, hlen2])]
  simp [ho1def, hpts]

/-- Witness for C5 at a concrete object and two concrete argument tuples. -/
theorem transform_overwrites_previous_transform_witness :
    (let o : SceneObject :=
      { meshPts := [⟨1, 2, 3⟩], default_mesh_pts := [⟨0, 0, 0⟩],
        default_centroid := ⟨0, 0, 0⟩, actor := none, default_color := none }
     (o.transform (some ⟨1, 0, 0⟩) none none none).transform
        (some ⟨0, 5, 0⟩) (some ⟨⟨0, -1, 0⟩, ⟨1, 0, 0⟩, ⟨0, 0, 1⟩⟩) none none =
      o.transform (some ⟨0, 5, 0⟩)
        (some ⟨⟨0, -1, 0⟩, ⟨1, 0, 0⟩, ⟨0, 0, 1⟩⟩) none none) :=
  transform_overwrites_previous_transform
    { meshPts := [⟨1, 2, 3⟩], default_mesh_pts := [⟨0, 0, 0⟩],
      default_centroid := ⟨0, 0, 0⟩, actor := none, default_color := none }
    (by decide)
    (some ⟨1, 0, 0⟩) none none none
    (some ⟨0, 5, 0⟩) (some ⟨⟨0, -1, 0⟩, ⟨1, 0, 0⟩, ⟨0, 0, 1⟩⟩) none none

theorem set_color_keeps_default (s : SceneObject) (d : ℕ) (a : PvActor)
    (hd : s.default_color = some d) (ha : s.actor = some a) (c : ℕ) :
    (s.set_color c).default_color = some d ∧
      (s.set_color c).actor = some { color := c } := by
  simp [SceneObject.set_color, ha, hd]

theorem foldl_set_color_keeps (cs : List ℕ) :
    ∀ (s : SceneObject) (d : ℕ) (a : PvActor),
      s.default_color = some d → s.actor = some a →
      (cs.foldl (fun s c => s.set_color c) s).default_color = some d ∧
        ∃ a2, (cs.foldl (fun s c => s.set_color c) s).actor = some a2 := by
  induction cs with
  | nil => intro s d a hd ha; exact ⟨hd, a, ha⟩
  | cons c cs ih =>
    intro s d a hd ha
    have h := set_color_keeps_default s d a hd ha c
    exact ih (s.set_color c) d { color := c } h.1 h.2

/--
C8: for an attached `SceneObject` with `default_color` unset, the first
`set_color` call captures the actor's current color as the restore point,
later `set_color` calls with other colors do not overwrite it, and
`reset_color` afterwards restores exactly the color the actor had before
the first `set_color` call.
-/
theorem set_color_reset_color_round_trip (o : SceneObject) (a : PvActor)
    (ha : o.actor = some a) (hd : o.default_color = none)
    (c0 : ℕ) (cs : List ℕ) :
    (cs.foldl (fun s c => s.set_color c) (o.set_color c0)).default_color =
        some a.color ∧
      ((cs.foldl (fun s c => s.set_color c) (o.set_color c0)).reset_color).actor =
        some a := by
  have h0 : (o.set_color c0).default_color = some a.color ∧
      (o.set_color c0).actor = some { color := c0 } := by
    simp [SceneObject.set_color, ha, hd]
  obtain ⟨hdk, a2, hak⟩ :=
    foldl_set_color_keeps cs (o.set_color c0) a.color { color := c0 } h0.1 h0.2
  refine ⟨hdk, ?_⟩
  simp [SceneObject.reset_color, hak, hdk]

/-- Witness for C8: attached actor of color 7, `set_color 3` then
`set_color 5` then `set_color 9`, then `reset_color` restores color 7. -/
theorem set_color_reset_color_round_trip_witness :
    (let o : SceneObject :=
      { meshPts := [], default_mesh_pts := [], default_centroid := 0,
        actor := some { color := 7 }, default_color := none }
     ([5, 9].foldl (fun s c => s.set_color c) (o.set_color 3)).default_color =
        some 7 ∧
      (([5, 9].foldl (fun s c => s.set_color c) (o.set_color 3)).reset_color).actor =
        some { color := 7 }) :=
  set_color_reset_color_round_trip
    { meshPts := [], default_mesh_pts := [], default_centroid := 0,
      actor := some { color := 7 }, default_color := none }
    { color := 7 } rfl rfl 3 [5, 9]

/-- Python exception kinds raised by the modelled code paths. -/
inductive PyErr where
  | typeError : PyErr
  | runtimeError : PyErr
  | missingLabel : PyErr
  | shapeMismatch : PyErr
  | indexError : PyErr
  | valueError : PyErr
deriving DecidableEq, Repr

mutual
/--
The composite scene-entity tree: a value stored in a
`SceneObjectBundle.children` dict is either a leaf `SceneObject` or a
nested `SceneObjectBundle` (scene_objects.py lines 194-387).  The
`set_color` participation flag and per-child style dict are omitted: no
claim here depends on them.
-/
inductive SceneEntity where
  | obj (o : SceneObject) : SceneEntity
  | bundle (children : BundleChildren) : SceneEntity
deriving DecidableEq, Repr

/-- A bundle's insertion-ordered `(name, child)` list
(`SceneObjectBundle.children`). -/
inductive BundleChildren where
  | nil : BundleChildren
  | cons (name : String) (child : SceneEntity) (rest : BundleChildren) :
      BundleChildren
deriving DecidableEq, Repr
end

/-- Sum of a list of vectors (`np.vstack(...).sum(axis=0)`). -/
def vecSum (l : List Vec3) : Vec3 := l.foldr (· + ·) 0

/-- Component-wise mean of a list of points, with the empty list mapped to
the origin (`np.vstack(all_points).mean(axis=0)` behind the `if all_points`
guard of `_compute_bundle_center`). -/
def meanPts (l : List Vec3) : Vec3 :=
  if l.length = 0 then 0 else Vec3.div (vecSum l) (l.length : ℚ)

/--
The `all_points` list built by
`SceneObjectBundle._compute_bundle_center` (scene_objects.py lines
361-375): each direct `SceneObject` child with a non-empty mesh
contributes all of its current mesh points; each nested bundle child
contributes a single point, its own recursively computed center.
-/
def gatherCenterPts : BundleChildren → List Vec3
  | .nil => []
  | .cons _ (.obj o) rest =>
      (if o.meshPts.length > 0 then o.meshPts else []) ++ gatherCenterPts rest
  | .cons _ (.bundle b) rest =>
      meanPts (gatherCenterPts b) :: gatherCenterPts rest

/-- Model of `SceneObjectBundle._compute_bundle_center` (scene_objects.py lines
361-375): mean of the gathered `all_points`, or the origin when empty. -/
def compute_bundle_center (cs : BundleChildren) : Vec3 :=
  meanPts (gatherCenterPts cs)

/-- All descendant mesh points of a bundle, recursively (the collection
the spec describes the centroid as the mean of). -/
def descendantPts : BundleChildren → List Vec3
  | .nil => []
  | .cons _ (.obj o) rest => o.meshPts ++ descendantPts rest
  | .cons _ (.bundle b) rest => descendantPts b ++ descendantPts rest

/-- The centroid as worded by the spec (for comparison with
`compute_bundle_center`): the arithmetic mean of all descendant mesh
points taken recursively, or the origin when the bundle has no geometry. -/
def specCentroid (cs : BundleChildren) : Vec3 :=
  meanPts (descendantPts cs)

/-- Returns `true` iff every child of the bundle is a leaf `SceneObject`
(no nested sub-bundles). -/
def flatBundle : BundleChildren → Bool
  | .nil => true
  | .cons _ (.obj _) rest => flatBundle rest
  | .cons _ (.bundle _) _ => false

theorem Vec3.add_def (a b : Vec3) : a + b = ⟨a.x + b.x, a.y + b.y, a.z + b.z⟩ := rfl

theorem Vec3.zero_def : (0 : Vec3) = ⟨0, 0, 0⟩ := rfl

/-- The concrete bundle used to separate `compute_bundle_center` from the
spec's "mean of all descendant points": one direct child with a single
point at the origin, and one nested sub-bundle whose only child carries
three points at `(3,0,0)`. -/
def centerCounterexampleBundle : BundleChildren :=
  .cons "a"
    (.obj { meshPts := [⟨0, 0, 0⟩], default_mesh_pts := [],
            default_centroid := 0, actor := none, default_color := none })
    (.cons "sub"
      (.bundle (.cons "b"
        (.obj { meshPts := [⟨3, 0, 0⟩, ⟨3, 0, 0⟩, ⟨3, 0, 0⟩],
                default_mesh_pts := [], default_centroid := 0,
                actor := none, default_color := none })
        .nil))
      .nil)

/--
Counterexample to C4: on a bundle with a nested sub-bundle,
`_compute_bundle_center` is NOT the mean of all descendant mesh points.
Here the code returns `(3/2, 0, 0)` (the nested bundle collapses to a
single point before averaging) while the mean of the four descendant
points is `(9/4, 0, 0)`.
-/
theorem compute_bundle_center_not_mean_of_descendants :
    compute_bundle_center centerCounterexampleBundle ≠
      specCentroid centerCounterexampleBundle := by
  simp [compute_bundle_center, specCentroid, meanPts, gatherCenterPts,
    descendantPts, vecSum, Vec3.div, centerCounterexampleBundle,
    Vec3.add_def, Vec3.zero_def, Vec3.mk.injEq]
  norm_num

theorem gather_eq_descendant_of_flat (cs : BundleChildren)
    (h : flatBundle cs = true) : gatherCenterPts cs = descendantPts cs := by
  induction cs using flatBundle.induct with
  | case1 => rfl
  | case2 name o rest ih =>
    simp only [flatBundle] at h
    simp only [gatherCenterPts, descendantPts, ih h]
    by_cases hl : o.meshPts.length > 0
    · rw [if_pos hl]
    · rw [if_neg hl]
      have : o.meshPts = [] := List.length_eq_zero.mp (by omega)
      rw [this]
  | case3 name b rest => simp [flatBundle] at h

/--
C4 amended: `_compute_bundle_center` averages the collection in which each
direct `SceneObject` child contributes all of its mesh points but each
nested sub-bundle contributes exactly one point — its own recursively
computed center; consequently, for a bundle without nested sub-bundles it
IS the mean of all descendant mesh points, and an empty bundle yields the
origin.
-/
theorem compute_bundle_center_flat_mean_and_nested_single_point :
    (∀ cs : BundleChildren, flatBundle cs = true →
      compute_bundle_center cs = specCentroid cs) ∧
    (∀ (name : String) (b rest : BundleChildren),
      gatherCenterPts (.cons name (.bundle b) rest) =
        compute_bundle_center b :: gatherCenterPts rest) ∧
    compute_bundle_center .nil = 0 := by
  refine ⟨fun cs h => ?_, fun name b rest => rfl, rfl⟩
  unfold compute_bundle_center specCentroid
  rw [gather_eq_descendant_of_flat cs h]

/-- Witness for C4 amended: the spec's own example, a single child with
points `(0,0,0)` and `(2,0,0)`, has centroid `(1,0,0)`, which is the mean
of all its descendant points. -/
theorem compute_bundle_center_flat_mean_witness :
    (let cs : BundleChildren := .cons "a"
      (.obj { meshPts := [⟨0, 0, 0⟩, ⟨2, 0, 0⟩], default_mesh_pts := [],
              default_centroid := 0, actor := none, default_color := none })
      .nil
     flatBundle cs = true ∧ compute_bundle_center cs = specCentroid cs) :=
  ⟨rfl, compute_bundle_center_flat_mean_and_nested_single_point.1 _ rfl⟩

/-- The canvas scene-object registry `self.scene_objects`: a Python dict
`name -> SceneObject`, modelled as an insertion-ordered association list
with unique keys. -/
abbrev Registry := List (String × SceneObject)

/-- The registry's key sequence, in insertion order. -/
def registryKeys (reg : Registry) : List String := reg.map Prod.fst

/-- Python dict assignment `d[k] = v`: overwrites in place when the key is
present, otherwise appends at the end (insertion order). -/
def dictSet (k : String) (v : SceneObject) (reg : Registry) : Registry :=
  if reg.any (fun p => p.1 == k) then
    reg.map (fun p => if p.1 == k then (k, v) else p)
  else reg ++ [(k, v)]

/--
Model of `BaseVisualPlotter.add_scene_object_bundle` (_base_plotters.py lines
165-206): walks the bundle's children in insertion order; a nested bundle
child recurses with the extended dotted name, a leaf child is written into
the registry under `bundle_name ++ "." ++ child_name`.  The `add_mesh`
upload, the actor assignment and the `visible` style extraction are
render-surface side effects outside this registry model.
-/
def add_scene_object_bundle (bundle_name : String) (cs : BundleChildren)
    (reg : Registry) : Registry :=
  match cs with
  | .nil => reg
  | .cons child_name child rest =>
    match child with
    | .bundle b =>
        add_scene_object_bundle bundle_name rest
          (add_scene_object_bundle (bundle_name ++ "." ++ child_name) b reg)
    | .obj o =>
        add_scene_object_bundle bundle_name rest
          (dictSet (bundle_name ++ "." ++ child_name) o reg)

/-- Model of `BaseVisualPlotter.remove_scene_object` (_base_plotters.py lines
208-213): when the name is registered, detach the actor (a render-surface
side effect) and delete the entry. -/
def remove_scene_object (name : String) (reg : Registry) : Registry :=
  if reg.any (fun p => p.1 == name) then
    reg.eraseP (fun p => p.1 == name)
  else reg

/-- Python `str.startswith`, written on the underlying character lists so
that concrete instances evaluate inside the kernel. -/
def pyStartswith (s pat : String) : Bool := pat.data.isPrefixOf s.data

/--
Model of `BaseVisualPlotter.remove_scene_object_bundle` (_base_plotters.py lines
215-227): collects every registry key that starts with
`bundle_name ++ "_"` (note: an underscore, not the dot used by
`add_scene_object_bundle`), then removes those keys one by one.
-/
def remove_scene_object_bundle (bundle_name : String) (reg : Registry) :
    Registry :=
  let keys_to_remove :=
    (reg.map Prod.fst).filter (fun k => pyStartswith k (bundle_name ++ "_"))
  keys_to_remove.foldl (fun r k => remove_scene_object k r) reg

/-- The dotted registry paths of every descendant leaf `SceneObject` of a
bundle, in the traversal order of `add_scene_object_bundle`. -/
def leafPaths (bundle_name : String) : BundleChildren → List String
  | .nil => []
  | .cons n (.obj _) rest =>
      (bundle_name ++ "." ++ n) :: leafPaths bundle_name rest
  | .cons n (.bundle b) rest =>
      leafPaths (bundle_name ++ "." ++ n) b ++ leafPaths bundle_name rest

/-- A placeholder leaf object for concrete registry scenarios. -/
def leafObj : SceneObject :=
  { meshPts := [], default_mesh_pts := [], default_centroid := 0,
    actor := none, default_color := none }

/-- An outer bundle whose single child is a nested sub-bundle `sub` with a
single leaf child `leaf`. -/
def nestedBundle : BundleChildren :=
  .cons "sub" (.bundle (.cons "leaf" (.obj leafObj) .nil)) .nil

theorem dictSet_keys_fresh (k : String) (v : SceneObject) (reg : Registry)
    (h : k ∉ registryKeys reg) :
    registryKeys (dictSet k v reg) = registryKeys reg ++ [k] := by
  have hany : reg.any (fun p => p.1 == k) = false := by
    rw [List.any_eq_false]
    intro p hp hbeq
    have hpk : p.1 = k := by simpa using hbeq
    exact h (hpk ▸ List.mem_map_of_mem Prod.fst hp)
  simp [dictSet, hany, registryKeys]

/--
Counterexample to C3: attaching a bundle `B` whose child `sub` is a nested
sub-bundle with leaf child `leaf` does NOT register the nested sub-bundle
as one entry `"B.sub"`; instead the nested bundle's own child is flattened
into the registry under `"B.sub.leaf"`.
-/
theorem add_scene_object_bundle_flattens_nested_into_registry :
    "B.sub" ∉ registryKeys (add_scene_object_bundle "B" nestedBundle []) ∧
      registryKeys (add_scene_object_bundle "B" nestedBundle []) =
        ["B.sub.leaf"] := by
  decide

/--
C3 amended: `add_scene_object_bundle` flattens bundles recursively into
the registry: provided the created dotted paths are fresh and mutually
distinct, the registry gains exactly one entry per descendant leaf
`SceneObject`, keyed by its full dotted path in traversal order, and no
entry for any nested bundle itself.
-/
theorem add_scene_object_bundle_keys (bundle_name : String)
    (cs : BundleChildren) (reg : Registry)
    (h : (registryKeys reg ++ leafPaths bundle_name cs).Nodup) :
    registryKeys (add_scene_object_bundle bundle_name cs reg) =
      registryKeys reg ++ leafPaths bundle_name cs := by
  induction bundle_name, cs, reg using add_scene_object_bundle.induct with
  | case1 bn reg => simp [add_scene_object_bundle, leafPaths]
  | case2 bn reg n rest b ih1 ih2 =>
    simp only [leafPaths] at h
    have h1 : (registryKeys reg ++ leafPaths (bn ++ "." ++ n) b).Nodup := by
      rw [← List.append_assoc] at h
      exact (List.nodup_append.mp h).1
    have hk1 := ih1 h1
    have h2 : (registryKeys (add_scene_object_bundle (bn ++ "." ++ n) b reg) ++
        leafPaths bn rest).Nodup := by
      rw [hk1, List.append_assoc]
      exact h
    have hk2 := ih2 h2
    simp only [add_scene_object_bundle, leafPaths]
    rw [hk2, hk1, List.append_assoc]
  | case3 bn reg n rest o ih =>
    simp only [leafPaths] at h
    have hfull : (bn ++ "." ++ n) ∉ registryKeys reg := by
      intro hin
      have hdisj := (List.nodup_append.mp h).2.2
      exact hdisj hin (List.mem_cons_self _ _)
    have hk1 := dictSet_keys_fresh (bn ++ "." ++ n) o reg hfull
    have h2 : (registryKeys (dictSet (bn ++ "." ++ n) o reg) ++
        leafPaths bn rest).Nodup := by
      rw [hk1, List.append_assoc, List.singleton_append]
      exact h
    have hk2 := ih h2
    simp only [add_scene_object_bundle, leafPaths]
    rw [hk2, hk1, List.append_assoc, List.singleton_append]

/-- Witness for C3 amended at the concrete nested bundle. -/
theorem add_scene_object_bundle_keys_witness :
    (registryKeys ([] : Registry) ++ leafPaths "B" nestedBundle).Nodup ∧
      registryKeys (add_scene_object_bundle "B" nestedBundle []) =
        registryKeys ([] : Registry) ++ leafPaths "B" nestedBundle :=
  ⟨by decide, add_scene_object_bundle_keys "B" nestedBundle [] (by decide)⟩

/-- A bundle with a single leaf child `icon`. -/
def iconBundle : BundleChildren := .cons "icon" (.obj leafObj) .nil

/--
C1 (code bug): attaching a bundle under name `B` registers its child as
`"B.icon"` (dotted path), but the teardown `remove_scene_object_bundle "B"`
filters keys by the prefix `"B_"` (underscore), so it removes no entry of
the bundle it is asked to tear down: the registry is left unchanged and
the bundle's entry survives.
-/
theorem remove_scene_object_bundle_misses_dotted_entries :
    remove_scene_object_bundle "B" (add_scene_object_bundle "B" iconBundle []) =
        add_scene_object_bundle "B" iconBundle [] ∧
      registryKeys (add_scene_object_bundle "B" iconBundle []) = ["B.icon"] := by
  decide

/-- Model of `np.asarray(x, dtype=float)` on an optional vector: converting `None`
raises `TypeError` (float() does not accept NoneType). -/
def asarrayFloat : Option Vec3 → Except PyErr Vec3
  | none => Except.error PyErr.typeError
  | some v => Except.ok v

/-- The loop body of `SceneObjectBundle.transform` (scene_objects.py lines
300-302) once the pivot has been resolved: every child receives the same
arguments with the resolved center; a nested bundle child takes its own
`transform`'s else-branch (its center argument is not `None`) and so
forwards the very same center to its children. -/
def transformChildren (translation : Option Vec3) (R : Option Mat3)
    (scale_factor : Option ℚ) (center : Vec3) :
    BundleChildren → BundleChildren
  | .nil => .nil
  | .cons n (.obj o) rest =>
      .cons n (.obj (o.transform translation R scale_factor (some center)))
        (transformChildren translation R scale_factor center rest)
  | .cons n (.bundle b) rest =>
      .cons n (.bundle (transformChildren translation R scale_factor center b))
        (transformChildren translation R scale_factor center rest)

/--
Model of `SceneObjectBundle.transform` (scene_objects.py lines 279-302): when no
center is given and a rotation or scaling is requested, the pivot is the
bundle's computed center; otherwise the given center goes through
`np.asarray(center, dtype=float)` — which raises `TypeError` when the
center is absent — before any child is touched.
-/
def bundle_transform (translation : Option Vec3) (R : Option Mat3)
    (scale_factor : Option ℚ) (center : Option Vec3)
    (cs : BundleChildren) : Except (PyErr × BundleChildren) BundleChildren :=
  if center.isNone ∧ (R.isSome ∨ scale_factor.isSome) then
    Except.ok
      (transformChildren translation R scale_factor (compute_bundle_center cs) cs)
  else
    match asarrayFloat center with
    | Except.error e => Except.error (e, cs)
    | Except.ok c => Except.ok (transformChildren translation R scale_factor c cs)

/-- Model of `SceneObjectBundle.translate` (scene_objects.py lines 304-316):
converts the translation vector (already a vector here, so the conversion
succeeds) and forwards it to every child's `translate`. -/
def bundle_translate (t : Vec3) : BundleChildren → BundleChildren
  | .nil => .nil
  | .cons n (.obj o) rest => .cons n (.obj (o.translate t)) (bundle_translate t rest)
  | .cons n (.bundle b) rest =>
      .cons n (.bundle (bundle_translate t b)) (bundle_translate t rest)

/-- The current mesh-point lists of all descendant leaf objects, in
traversal order. -/
def leafMeshPts : BundleChildren → List (List Vec3)
  | .nil => []
  | .cons _ (.obj o) rest => o.meshPts :: leafMeshPts rest
  | .cons _ (.bundle b) rest => leafMeshPts b ++ leafMeshPts rest

theorem translate_meshPts (t : Vec3) (o : SceneObject) :
    (o.translate t).meshPts = o.meshPts.map (fun p => p + t) := by
  simp [SceneObject.translate, SceneObject.update_mesh_points]

/--
C10: calling `SceneObjectBundle.transform` with only a translation
(rotation, scale factor and center all omitted) raises `TypeError` from
converting the absent center, before any child is touched, so no child is
translated; translation-only movement of a bundle works through the
separate `translate` method, which shifts every descendant leaf's mesh
points by the given vector.
-/
theorem bundle_transform_translation_only_raises :
    (∀ (cs : BundleChildren) (t : Vec3),
      bundle_transform (some t) none none none cs =
        Except.error (PyErr.typeError, cs)) ∧
    (∀ (cs : BundleChildren) (t : Vec3),
      leafMeshPts (bundle_translate t cs) =
        (leafMeshPts cs).map (List.map (fun p => p + t))) := by
  constructor
  · intro cs t
    rfl
  · intro cs t
    induction cs using bundle_translate.induct t with
    | case1 => rfl
    | case2 n o rest ih =>
      simp only [bundle_translate, leafMeshPts, List.map_cons, ih,
        translate_meshPts]
    | case3 n b rest ihb ih =>
      simp only [bundle_translate, leafMeshPts, List.map_append, ihb, ih]

/-- One `next()` call on a CPython dict iterator that recorded `iterSize`
entries at creation: it raises `RuntimeError` ("dictionary changed size
during iteration") whenever the dict's current size differs from the
recorded one, and otherwise yields the entry at position `i`, if any. -/
def dictNext (iterSize : Nat) (d : Registry) (i : Nat) :
    Except PyErr (Option (String × SceneObject)) :=
  if d.length ≠ iterSize then Except.error PyErr.runtimeError
  else Except.ok d[i]?

/-- The `for name, obj in self.scene_objects.items():
self.remove_scene_object(name)` loop of `BaseCanvasPlotter.clear_artists`
(plotter_canvas.py lines 98-102, identical in base_canvas.py lines 94-98),
with CPython's dict-iterator size guard.  The fuel argument only bounds
the iteration count; `clear_artists` passes one more unit than the dict
can ever yield. -/
def clearLoop : Nat → Nat → Nat → Registry → Except (PyErr × Registry) Registry
  | 0, _, _, d => Except.ok d
  | fuel + 1, iterSize, i, d =>
    match dictNext iterSize d i with
    | Except.error e => Except.error (e, d)
    | Except.ok none => Except.ok d
    | Except.ok (some p) =>
        clearLoop fuel iterSize (i + 1) (remove_scene_object p.1 d)

/-- Model of `BaseCanvasPlotter.clear_artists`: run the removal loop over a live
iterator of the registry, then `self.scene_objects.clear()`. -/
def clear_artists (d : Registry) : Except (PyErr × Registry) Registry :=
  match clearLoop (d.length + 1) d.length 0 d with
  | Except.error e => Except.error e
  | Except.ok _ => Except.ok []

/--
C2 (code bug): on any non-empty registry, `clear_artists` deletes the
first entry through `remove_scene_object` and then the dict iterator's
size guard fires: the call raises `RuntimeError` with only the first entry
removed, instead of removing every entry without error — so `reset_scene`
is not re-invocable once the scene is populated.
-/
theorem clear_artists_raises_on_populated (name : String) (o : SceneObject)
    (rest : Registry) :
    clear_artists ((name, o) :: rest) =
      Except.error (PyErr.runtimeError, rest) := by
  have hlen : ((name, o) :: rest).length = rest.length + 1 := rfl
  have hrm : remove_scene_object name ((name, o) :: rest) = rest := by
    simp [remove_scene_object, List.eraseP_cons]
  simp [clear_artists, hlen, clearLoop, dictNext, hrm]

/--
Model of `SimulationGridContext` (ui/grid.py lines 17-41): the shared focus
context, holding the focused robot index and the previously focused one.
-/
structure SimulationGridContext where
  robot_focus : Option Int
  prev_robot_focus : Option Int
deriving DecidableEq, Repr

/-- The `robot_focus` property setter (ui/grid.py lines 36-41): when the
value differs from the current one, record the old value as
`_prev_robot_focus`, store the new value, then emit
`robot_focus_changed(value)`; otherwise do nothing.  The second component
lists the emissions, each delivered synchronously to every connected
subscriber before the setter returns. -/
def setRobotFocus (value : Option Int) (c : SimulationGridContext) :
    SimulationGridContext × List (Option Int) :=
  if c.robot_focus ≠ value then
    ({ robot_focus := value, prev_robot_focus := c.robot_focus }, [value])
  else (c, [])

/--
C7: setting the focused robot index to its current value is a no-op firing
no notification; setting it to a different value records the old value as
the previous focused index, updates the focused index, and fires exactly
one change notification before the setter returns.
-/
theorem robot_focus_setter_spec :
    (∀ (c : SimulationGridContext) (v : Option Int), v = c.robot_focus →
      setRobotFocus v c = (c, [])) ∧
    (∀ (c : SimulationGridContext) (v : Option Int), v ≠ c.robot_focus →
      setRobotFocus v c =
        ({ robot_focus := v, prev_robot_focus := c.robot_focus }, [v])) := by
  constructor
  · intro c v h
    simp [setRobotFocus, h]
  · intro c v h
    simp [setRobotFocus, Ne.symm h]

/-- Witness for C7: from focus `None`, setting focus `1` fires one
notification and records `None` as previous; setting `1` again fires
none. -/
theorem robot_focus_setter_spec_witness :
    setRobotFocus (some 1) { robot_focus := none, prev_robot_focus := none } =
        ({ robot_focus := some 1, prev_robot_focus := none }, [some 1]) ∧
      setRobotFocus (some 1)
          { robot_focus := some 1, prev_robot_focus := none } =
        ({ robot_focus := some 1, prev_robot_focus := none }, []) :=
  ⟨robot_focus_setter_spec.2 _ _ (by decide),
   robot_focus_setter_spec.1 _ _ rfl⟩

/-- A point array argument to `Line.set_points`: numpy arrays of shape
`(N, 2)` or `(N, 3)`. -/
inductive PtArray where
  | dim2 (pts : List Vec2) : PtArray
  | dim3 (pts : List Vec3) : PtArray
deriving DecidableEq, Repr

/-- Model of `points.shape[0]`. -/
def ptCount : PtArray → Nat
  | .dim2 l => l.length
  | .dim3 l => l.length

/-- The `np.hstack([points, zeros])` zero-padding applied when
`points.shape[1] == 2` (scene_objects.py lines 505-506). -/
def pad3 : PtArray → List Vec3
  | .dim2 l => l.map (fun p => ⟨p.x, p.y, 0⟩)
  | .dim3 l => l

/-- A `pv.PolyData` mesh restricted to what the polyline code touches:
its point array and its VTK line-connectivity array. -/
structure PolyData where
  points : List Vec3
  lines : List ℤ
deriving DecidableEq, Repr

/-- Model of `Line._gen_line_from_points` (scene_objects.py lines 501-514): pad 2-D
points to 3-D; with more than one point build the connectivity
`[2, i, i+1]` for each consecutive pair, otherwise an empty array. -/
def gen_line_from_points (points : PtArray) : PolyData :=
  let n_pts := ptCount points
  let pts3 := pad3 points
  let lines : List ℤ :=
    if n_pts > 1 then
      (List.range (n_pts - 1)).flatMap (fun i => [2, (i : ℤ), ((i : ℤ) + 1)])
    else []
  { points := pts3, lines := lines }

/-- The trajectory polyline object: `Line.set_points` rebuilds the whole
mesh via `_gen_line_from_points` and swaps it in through `update_mesh`
(the actor-mapper rebind is a render-surface side effect). -/
structure Line where
  mesh : PolyData
deriving DecidableEq, Repr

/-- Model of `Line.set_points` (scene_objects.py lines 497-499). -/
def Line.set_points (new_points : PtArray) (l : Line) : Line :=
  { l with mesh := gen_line_from_points new_points }

/-- Decode a VTK line-cell array consisting of two-point cells into the
list of its segments; `none` when the array is not of that form. -/
def parseSegments : List ℤ → Option (List (ℕ × ℕ))
  | [] => some []
  | 2 :: a :: b :: rest => (parseSegments rest).map (fun s => (a.toNat, b.toNat) :: s)
  | _ => none

theorem parseSegments_cons (a b : ℤ) (rest : List ℤ) :
    parseSegments (2 :: a :: b :: rest) =
      (parseSegments rest).map (fun s => (a.toNat, b.toNat) :: s) := rfl

theorem parseSegments_range (s n : Nat) :
    parseSegments ((List.range' s n).flatMap
        (fun i => [2, (i : ℤ), ((i : ℤ) + 1)])) =
      some ((List.range' s n).map (fun i => (i, i + 1))) := by
  induction n generalizing s with
  | zero => rfl
  | succ n ih =>
    rw [List.range'_succ, List.flatMap_cons]
    have hform : ([2, (s : ℤ), ((s : ℤ) + 1)] ++
        (List.range' (s + 1) n).flatMap (fun i => [2, (i : ℤ), ((i : ℤ) + 1)])) =
        2 :: (s : ℤ) :: ((s : ℤ) + 1) ::
          (List.range' (s + 1) n).flatMap (fun i => [2, (i : ℤ), ((i : ℤ) + 1)]) := rfl
    rw [hform, parseSegments_cons, ih (s + 1), List.map_cons]
    simp

/--
C9: `Line.set_points` with an array of `N` points (2-D points zero-padded
to 3-D) rebuilds the mesh so that it holds exactly those `N` points, and
its topology is exactly `N-1` two-point cells connecting consecutive
points in order when `N > 1`, and an empty topology with zero segments
(no error) when `N ≤ 1`.
-/
theorem set_points_polyline (new_points : PtArray) (l : Line) :
    (l.set_points new_points).mesh.points = pad3 new_points ∧
      (l.set_points new_points).mesh.points.length = ptCount new_points ∧
      parseSegments (l.set_points new_points).mesh.lines =
        some ((List.range (ptCount new_points - 1)).map (fun i => (i, i + 1))) := by
  refine ⟨rfl, ?_, ?_⟩
  · cases new_points <;> simp [Line.set_points, gen_line_from_points, pad3, ptCount]
  · show parseSegments (gen_line_from_points new_points).lines = _
    simp only [gen_line_from_points]
    by_cases h : ptCount new_points > 1
    · rw [if_pos h, List.range_eq_range']
      exact parseSegments_range 0 (ptCount new_points - 1)
    · rw [if_neg h]
      have h0 : ptCount new_points - 1 = 0 := by omega
      rw [h0]
      rfl

/-- Python substring containment `pat in s`, written on the underlying
character lists. -/
def pyIn (pat s : String) : Bool :=
  (List.range (s.data.length + 1)).any (fun i => pat.data.isPrefixOf (s.data.drop i))

/-- Python `str.endswith`, written on the underlying character lists. -/
def pyEndswith (s pat : String) : Bool := pat.data.isSuffixOf s.data

/-- A registry value of the 2-D canvas: a dict `{"mesh": ..., "actor": ...}`
as stored by the canvas base class the plotters were written against (the
`_base_py_plotter` module imported by plotter_3d_canvas.py, absent from
the sources; its registry-value shape is recovered from the accesses
`obj["mesh"]` / `obj["actor"]` in the update loops).  The robot meshes
additionally carry the factory-set `field_data` entries `orig_points`
(taken `[:, :2]`) and `orig_centroid` (`[:2]`). -/
structure Obj2D where
  meshPts : List Vec3
  meshLines : List ℤ
  visible : Bool
  origPoints : List Vec2
  origCentroid : Vec2
deriving DecidableEq, Repr

/-- A registry value of the 3-D canvas (see `Obj2D`); here `orig_points`
is an `(M, 3)` array and `orig_centroid` a 3-vector. -/
structure Obj3D where
  meshPts : List Vec3
  meshLines : List ℤ
  visible : Bool
  origPoints : List Vec3
  origCentroid : Vec3
deriving DecidableEq, Repr

abbrev Registry2D := List (String × Obj2D)

abbrev Registry3D := List (String × Obj3D)

/-- The slice of `sim_data` read by `Plotter2DCanvas.update_all_scene_objects`:
the arrays found under the configured positions and orientations labels
(`None` when the label is absent from `sim_data`).  Positions are
time-major `(T, N, 2)`, orientations `(T, N)`. -/
structure SimData2D where
  positions : Option (List (List Vec2))
  orientations : Option (List (List ℚ))

/-- A numpy array of shape `(T, N, 3)`: `shape1` is the robot-count
dimension `shape[1]`, `rows` the per-time slices (each of length
`shape1`). -/
structure Arr3D where
  shape1 : Nat
  rows : List (List Vec3)

/-- The slice of `sim_data` read by `Plotter3DCanvas.update_all_scene_objects`.
The rank checks (`positions.ndim == 3`, `shape[2] == 3`,
`rotations.ndim == 4`, `shape[2:] == (3, 3)`) hold by construction of
these types. -/
structure SimData3D where
  positions : Option Arr3D
  rotations : Option (List (List Mat3))

instance : Sub Vec2 := ⟨fun a b => ⟨a.x - b.x, a.y - b.y⟩⟩
instance : Add Vec2 := ⟨fun a b => ⟨a.x + b.x, a.y + b.y⟩⟩

/-- Model of `transform_points` (plotter_2d_canvas.py lines 15-24): optional 2-D
rotation about the centroid, then translation.  The `np.cos`/`np.sin`
evaluation of the heading is abstracted by the function arguments `cosf`
and `sinf`. -/
def transform_points (cosf sinf : ℚ → ℚ) (points : List Vec2)
    (centroid : Vec2) (translation : Vec2) (orientation : Option ℚ) :
    List Vec2 :=
  let pts := match orientation with
    | some θ =>
        points.map (fun p =>
          let q := p - centroid
          (⟨cosf θ * q.x - sinf θ * q.y, sinf θ * q.x + cosf θ * q.y⟩ : Vec2) +
            centroid)
    | none => points
  pts.map (fun p => p + translation)

/-- Extract column `j` of a time-major array (`arr[0:idx, j, :]` after the
`take`); numpy would raise `IndexError` were a row too short. -/
def column2 (rows : List (List Vec2)) (j : Nat) : Except PyErr (List Vec2) :=
  rows.mapM (fun row =>
    match row[j]? with
    | some v => Except.ok v
    | none => Except.error PyErr.indexError)

/-- Column extraction for 3-D position arrays. -/
def column3 (rows : List (List Vec3)) (j : Nat) : Except PyErr (List Vec3) :=
  rows.mapM (fun row =>
    match row[j]? with
    | some v => Except.ok v
    | none => Except.error PyErr.indexError)

/-- Tail-window truncation: keep only the last `robot_tail` points
(`new_points[-self.robot_tail:, :]` when the tail is bounded and
exceeded). -/
def tailTruncate (robot_tail : Option Nat) (pts : List Vec3) : List Vec3 :=
  match robot_tail with
  | some tail => if pts.length > tail then pts.drop (pts.length - tail) else pts
  | none => pts

/-- VTK connectivity of an open polyline over `n_pts` points
(`[2, i, i+1]` per consecutive pair when `n_pts > 1`, else empty). -/
def polylineCells (n_pts : Nat) : List ℤ :=
  if n_pts > 1 then
    (List.range (n_pts - 1)).flatMap (fun i => [2, (i : ℤ), ((i : ℤ) + 1)])
  else []

/-- Model of `orientations = sim_data.get(orient_label)` followed by
`orientations[idx, :]` when present (plotter_2d_canvas.py lines 154-157). -/
def orientLookup (d : SimData2D) (idx : Nat) : Except PyErr (Option (List ℚ)) :=
  match d.orientations with
  | none => Except.ok none
  | some odata =>
    match odata[idx]? with
    | none => Except.error PyErr.indexError
    | some os => Except.ok (some os)

/-- The robot count the 2-D canvas update checks against: registry keys
not containing `".traj"` (plotter_2d_canvas.py line 160). -/
def n_robots_2d (reg : Registry2D) : Nat :=
  (reg.filter (fun p => ¬ pyIn ".traj" p.1)).length

/-- The robot count the 3-D canvas update checks against: registry keys
not ending in `".traj"` (plotter_3d_canvas.py line 152). -/
def n_robots_3d (reg : Registry3D) : Nat :=
  (reg.filter (fun p => ¬ pyEndswith p.1 ".traj")).length

/-- Model of `rotations_data[idx, counter, :, :]` when rotations are provided
(plotter_3d_canvas.py lines 186-190). -/
def rotLookup3 (rotations : Option (List (List Mat3))) (idx counter : Nat) :
    Except PyErr (Option Mat3) :=
  match rotations with
  | none => Except.ok none
  | some rdata =>
    match rdata[idx]? with
    | none => Except.error PyErr.indexError
    | some row =>
      match row[counter]? with
      | none => Except.error PyErr.indexError
      | some R => Except.ok (some R)

/-- Model of `transform_points_3d` (plotter_3d_canvas.py lines 12-27): optional
rotation about the centroid, then translation. -/
def transform_points_3d (points : List Vec3) (centroid : Vec3)
    (translation : Vec3) (R : Option Mat3) : List Vec3 :=
  let pts := match R with
    | some r => points.map (fun p => r.mulVec (p - centroid) + centroid)
    | none => points
  pts.map (fun p => p + translation)

/-- The per-object loop of `Plotter2DCanvas.update_all_scene_objects`
(plotter_2d_canvas.py lines 164-194): `done` is the already-visited slice
of the registry, `todo` the remainder; `counter` counts visited trajectory
entries.  A trajectory entry (name containing `".traj"`) gets its tail of
past positions rebuilt; a robot entry is made visible and its mesh x/y
coordinates replaced via `_update_robot` (lines 202-217). -/
def updateLoop2D (cosf sinf : ℚ → ℚ) (robot_tail : Option Nat)
    (pdata : List (List Vec2)) (positions : List Vec2)
    (orientations : Option (List ℚ)) (idx : Nat) :
    Nat → Registry2D → Registry2D → Except (PyErr × Registry2D) Registry2D
  | _, done, [] => Except.ok done
  | counter, done, (name, obj) :: todo =>
    if pyIn ".traj" name then
      match column2 (pdata.take idx) counter with
      | Except.error e => Except.error (e, done ++ (name, obj) :: todo)
      | Except.ok traj_xy =>
        let new_points :=
          tailTruncate robot_tail (traj_xy.map (fun p => (⟨p.x, p.y, 0⟩ : Vec3)))
        let obj2 := { obj with
          meshPts := new_points,
          meshLines := polylineCells new_points.length,
          visible := true }
        updateLoop2D cosf sinf robot_tail pdata positions orientations idx
          (counter + 1) (done ++ [(name, obj2)]) todo
    else
      let obj1 := { obj with visible := true }
      match positions[counter]? with
      | none => Except.error (PyErr.indexError, done ++ (name, obj1) :: todo)
      | some centroid =>
        match (match orientations with
               | some os =>
                 match os[counter]? with
                 | none => Except.error PyErr.indexError
                 | some h => Except.ok (some h)
               | none => Except.ok none : Except PyErr (Option ℚ)) with
        | Except.error e => Except.error (e, done ++ (name, obj1) :: todo)
        | Except.ok orientation =>
          let translation := centroid - obj.origCentroid
          let newxy := transform_points cosf sinf obj.origPoints
            obj.origCentroid translation orientation
          if obj.meshPts.length = newxy.length then
            let obj2 := { obj1 with
              meshPts := obj.meshPts.zipWith
                (fun p q => (⟨q.x, q.y, p.z⟩ : Vec3)) newxy }
            updateLoop2D cosf sinf robot_tail pdata positions orientations idx
              counter (done ++ [(name, obj2)]) todo
          else
            Except.error (PyErr.valueError, done ++ (name, obj1) :: todo)

/--
Model of `Plotter2DCanvas.update_all_scene_objects` (plotter_2d_canvas.py lines
135-199): read the positions array for the configured label (missing →
`ValueError`), slice frame `idx`, read the optional orientations slice,
then check the robot-count dimension against the number of non-trajectory
registry entries and raise the shape-mismatch `ValueError` BEFORE the
per-object mutation loop.  The final grid recenter and render call are
render-surface side effects outside this model.
-/
def update_all_scene_objects_2d (cosf sinf : ℚ → ℚ) (robot_tail : Option Nat)
    (d : SimData2D) (idx : Nat) (reg : Registry2D) :
    Except (PyErr × Registry2D) Registry2D :=
  match d.positions with
  | none => Except.error (PyErr.missingLabel, reg)
  | some pdata =>
    match pdata[idx]? with
    | none => Except.error (PyErr.indexError, reg)
    | some positions =>
      match orientLookup d idx with
      | Except.error e => Except.error (e, reg)
      | Except.ok orientations =>
        if positions.length ≠ n_robots_2d reg then
          Except.error (PyErr.shapeMismatch, reg)
        else
          updateLoop2D cosf sinf robot_tail pdata positions orientations idx
            0 [] reg

/-- The per-object loop of `Plotter3DCanvas.update_all_scene_objects`
(plotter_3d_canvas.py lines 158-192), structured like `updateLoop2D`; a
robot entry has its whole point array replaced through
`_update_robot_3d` (lines 200-221) and is then made visible. -/
def updateLoop3D (robot_tail : Option Nat) (pdata : Arr3D)
    (rotations : Option (List (List Mat3))) (idx : Nat) :
    Nat → Registry3D → Registry3D → Except (PyErr × Registry3D) Registry3D
  | _, done, [] => Except.ok done
  | counter, done, (name, obj) :: todo =>
    if pyEndswith name ".traj" then
      match column3 (pdata.rows.take idx) counter with
      | Except.error e => Except.error (e, done ++ (name, obj) :: todo)
      | Except.ok traj =>
        let new_points := tailTruncate robot_tail traj
        let obj2 := { obj with
          meshPts := new_points,
          meshLines := polylineCells new_points.length,
          visible := true }
        updateLoop3D robot_tail pdata rotations idx (counter + 1)
          (done ++ [(name, obj2)]) todo
    else
      match (match pdata.rows[idx]? with
             | none => Except.error PyErr.indexError
             | some row =>
               match row[counter]? with
               | none => Except.error PyErr.indexError
               | some c => Except.ok c : Except PyErr Vec3) with
      | Except.error e => Except.error (e, done ++ (name, obj) :: todo)
      | Except.ok centroid3 =>
        match rotLookup3 rotations idx counter with
        | Except.error e => Except.error (e, done ++ (name, obj) :: todo)
        | Except.ok R =>
          let translation := centroid3 - obj.origCentroid
          let obj2 := { obj with
            meshPts := transform_points_3d obj.origPoints obj.origCentroid
              translation R,
            visible := true }
          updateLoop3D robot_tail pdata rotations idx counter
            (done ++ [(name, obj2)]) todo

/--
Model of `Plotter3DCanvas.update_all_scene_objects` (plotter_3d_canvas.py lines
129-195): read the positions array (missing → `ValueError`; the rank
checks hold by the `Arr3D` type), compare its robot-count dimension
`shape[1]` with the number of non-trajectory registry entries and raise
the shape-mismatch `ValueError` BEFORE the per-object mutation loop.
-/
def update_all_scene_objects_3d (robot_tail : Option Nat) (d : SimData3D)
    (idx : Nat) (reg : Registry3D) : Except (PyErr × Registry3D) Registry3D :=
  match d.positions with
  | none => Except.error (PyErr.missingLabel, reg)
  | some pdata =>
    if n_robots_3d reg ≠ pdata.shape1 then
      Except.error (PyErr.shapeMismatch, reg)
    else
      updateLoop3D robot_tail pdata d.rotations idx 0 [] reg

/--
C6: on both concrete canvases, calling `update_all_scene_objects` with a
positions array whose robot-count dimension differs from the number of
robot entries in the registry raises the shape-mismatch error before the
per-object loop, leaving every robot mesh and every trajectory unchanged
(the carried error state is exactly the registry as it was).
-/
theorem update_all_scene_objects_shape_mismatch_no_mutation :
    (∀ (cosf sinf : ℚ → ℚ) (robot_tail : Option Nat) (d : SimData2D)
        (idx : Nat) (reg : Registry2D) (pdata : List (List Vec2))
        (positions : List Vec2) (orientations : Option (List ℚ)),
      d.positions = some pdata →
      pdata[idx]? = some positions →
      orientLookup d idx = Except.ok orientations →
      positions.length ≠ n_robots_2d reg →
      update_all_scene_objects_2d cosf sinf robot_tail d idx reg =
        Except.error (PyErr.shapeMismatch, reg)) ∧
    (∀ (robot_tail : Option Nat) (d : SimData3D) (idx : Nat)
        (reg : Registry3D) (pdata : Arr3D),
      d.positions = some pdata →
      n_robots_3d reg ≠ pdata.shape1 →
      update_all_scene_objects_3d robot_tail d idx reg =
        Except.error (PyErr.shapeMismatch, reg)) := by
  constructor
  · intro cosf sinf robot_tail d idx reg pdata positions orientations
      hp hidx hor hne
    simp [update_all_scene_objects_2d, hp, hidx, hor, hne]
  · intro robot_tail d idx reg pdata hp hne
    simp [update_all_scene_objects_3d, hp, hne]

/-- A placeholder 2-D registry value. -/
def dummyObj2D : Obj2D :=
  { meshPts := [], meshLines := [], visible := false,
    origPoints := [], origCentroid := ⟨0, 0⟩ }

/-- A placeholder 3-D registry value. -/
def dummyObj3D : Obj3D :=
  { meshPts := [], meshLines := [], visible := false,
    origPoints := [], origCentroid := 0 }

/-- Witness for C6: a 2-D canvas holding one robot fed two positions, and
a 3-D canvas holding one robot fed a `(T, 5, 3)` array, both fail with the
shape mismatch and an untouched registry. -/
theorem update_all_scene_objects_shape_mismatch_witness :
    (let d2 : SimData2D :=
      { positions := some [[⟨0, 0⟩, ⟨1, 1⟩]], orientations := none }
     let reg2 : Registry2D := [("robot_0", dummyObj2D)]
     update_all_scene_objects_2d (fun _ => 1) (fun _ => 0) (some 100) d2 0 reg2 =
       Except.error (PyErr.shapeMismatch, reg2)) ∧
    (let d3 : SimData3D :=
      { positions := some { shape1 := 5, rows := [] }, rotations := none }
     let reg3 : Registry3D :=
       [("robot_0", dummyObj3D), ("robot_0.traj", dummyObj3D)]
     update_all_scene_objects_3d (some 100) d3 0 reg3 =
       Except.error (PyErr.shapeMismatch, reg3)) :=
  ⟨update_all_scene_objects_shape_mismatch_no_mutation.1
      (fun _ => 1) (fun _ => 0) (some 100) _ 0 _ _ _ none rfl rfl rfl
      (by decide),
   update_all_scene_objects_shape_mismatch_no_mutation.2
      (some 100) _ 0 _ _ rfl (by decide)⟩
